import Mathlib

/-!
Verification development for `Contrib/hit_likeness/physchem_calc.py`.

The script reads a line-delimited SMILES file, computes twelve
physicochemical descriptors per molecule through the external chemistry
toolkit, and writes a tab-separated table, distributing work over a
process pool.

Shallow embedding conventions:
  - the input file is a `List String` of its lines;
  - the external toolkit (molecule parsing and descriptor computation) is
    an abstract interface `Toolkit`, since those functions live outside
    the script; the script logic is embedded faithfully on top of it;
  - Python floats are modelled as rationals; the builtin `round` is an
    abstract parameter `roundQ` (theorems hold for every rounding
    function, witnesses instantiate a concrete one);
  - the generator `read_smi` is modelled as the list of pairs it yields
    together with how iteration ends (`ReadOutcome`): normal exhaustion,
    the `raise StopIteration` path (which, since Python 3.7 / PEP 479,
    surfaces to the consumer as a `RuntimeError`), or the `IndexError`
    from indexing an empty field list.
-/

namespace Physchem

/-- Drop leading and trailing whitespace from a character list. -/
def stripChars (s : List Char) : List Char :=
  ((s.dropWhile Char.isWhitespace).reverse.dropWhile Char.isWhitespace).reverse

/-- Embedding of Python `str.strip()` as used on each input line:
removes leading and trailing whitespace. -/
def pyStrip (s : String) : String := String.mk (stripChars s.data)

/-- Accumulator loop for whitespace splitting: `acc` holds the chars of
the token being read, in reverse. -/
def splitWsAux : List Char → List Char → List String
  | [], acc => if acc.isEmpty then [] else [String.mk acc.reverse]
  | c :: cs, acc =>
    if c.isWhitespace then
      if acc.isEmpty then splitWsAux cs []
      else String.mk acc.reverse :: splitWsAux cs []
    else splitWsAux cs (c :: acc)

/-- Embedding of Python `str.split()` with no separator: split on runs of
whitespace, discarding empty fields, so that the empty string yields an
empty list. -/
def pySplitWs (s : String) : List String := splitWsAux s.data []

/-- Embedding of `line.strip().split(sep)` from `read_smi`: `sep = none`
is the default whitespace splitting, `some s` is an explicit separator
(Python keeps empty fields in that case, e.g. `"".split(t)` is `[""]`). -/
def splitLine (sep : Option String) (line : String) : List String :=
  match sep with
  | none => pySplitWs (pyStrip line)
  | some s => (pyStrip line).splitOn s

/-- How iterating the `read_smi` generator ends: `eof` is normal
exhaustion of the file; `stopIterationRuntimeError` is the explicit
`raise StopIteration` at the end of the requested window, which since
Python 3.7 (PEP 479) reaches the consumer as a `RuntimeError`;
`indexError` is the `IndexError` raised by `items[0]` when the split of a
line produced no fields. -/
inductive ReadOutcome where
  | eof : ReadOutcome
  | stopIterationRuntimeError : ReadOutcome
  | indexError : ReadOutcome
deriving DecidableEq, Repr

/-- Guard `i < end_pos` from `read_smi`; `none` models
`end_pos = float("inf")` (the `nlines is None` branch). -/
def beforeEnd (ep : Option Int) (i : Nat) : Bool :=
  match ep with
  | none => true
  | some e => (i : Int) < e

/-- Body of the `for i, line in enumerate(f)` loop of `read_smi`,
returning the yielded `(items[0], items[1-or-0])` pairs and how the
iteration ends. A line whose split is empty hits `items[0]` and raises
`IndexError`; reaching `i >= end_pos` executes `raise StopIteration`. -/
def readLoop (sep : Option String) (sp : Int) (ep : Option Int) :
    Nat → List String → List (String × String) × ReadOutcome
  | _, [] => ([], ReadOutcome.eof)
  | i, line :: rest =>
    if sp ≤ (i : Int) then
      if beforeEnd ep i then
        match splitLine sep line with
        | [] => ([], ReadOutcome.indexError)
        | [x] =>
          let r := readLoop sep sp ep (i + 1) rest
          ((x, x) :: r.1, r.2)
        | x :: y :: _ =>
          let r := readLoop sep sp ep (i + 1) rest
          ((x, y) :: r.1, r.2)
      else ([], ReadOutcome.stopIterationRuntimeError)
    else readLoop sep sp ep (i + 1) rest

/-- Embedding of `read_smi(fname, sep, start_pos, nlines)`: the file is
given as its list of lines. The function first decrements `start_pos`
(`start_pos -= 1`) and sets `end_pos = start_pos + nlines` when `nlines`
is given. -/
def read_smi (lines : List String) (sep : Option String) (start_pos : Int)
    (nlines : Option Nat) : List (String × String) × ReadOutcome :=
  let sp := start_pos - 1
  let ep : Option Int := nlines.map (fun l => sp + (l : Int))
  readLoop sep sp ep 0 lines

/-- Default of the startpos argument (short flag -p) in the argparse
setup: the
source passes `default=0` (while its help text announces `Default: 1`). -/
def startpos_default : Int := 0

/-- One entry of the heterogeneous result tuple built by `calc`:
the molecule name (a string), an integer descriptor, or a float
descriptor (floats are modelled as rationals). -/
inductive Field where
  | S : String → Field
  | I : Nat → Field
  | F : Rat → Field
deriving DecidableEq, Repr

/-- Result of one `calc(smi, name)` call: `ok` is the returned tuple,
`parseFail` is the `return None` branch taken when `MolFromSmiles`
returned `None`, and `zeroDivisionError` is the `ZeroDivisionError`
raised by the scaffold-fraction division when the parsed molecule has
zero heavy atoms. -/
inductive CalcOutcome where
  | ok : List Field → CalcOutcome
  | parseFail : CalcOutcome
  | zeroDivisionError : CalcOutcome
deriving DecidableEq, Repr

/-- Interface of the external chemistry toolkit over an abstract molecule
handle type. Modelled from the spec: the toolkit functions called by the
script (rdkit) are outside the embedded source; per the spec they parse a
structure string into a molecule handle or fail, and compute scalar
descriptors from a handle. `CalcCrippenDescriptors` returns the pair
(logP, MR); `CalcMolWt` stands for `rdMolDescriptors._CalcMolWt`. -/
structure Toolkit (Mol : Type) where
  MolFromSmiles : String → Option Mol
  CalcNumHBA : Mol → Nat
  CalcNumHBD : Mol → Nat
  CalcNumRings : Mol → Nat
  CalcNumRotatableBonds : Mol → Nat
  CalcTPSA : Mol → Rat
  CalcCrippenDescriptors : Mol → Rat × Rat
  CalcMolWt : Mol → Rat
  CalcFractionCSP3 : Mol → Rat
  GetScaffoldForMol : Mol → Mol
  GetNumHeavyAtoms : Mol → Nat
  qed : Mol → Rat

/-- Embedding of `calc(smi, name)` (named `calcDesc` because `calc` is a
reserved word in Lean). `roundQ` stands for the Python builtin `round`
applied with the digit counts written in the source. Returns the call
outcome together with the list of strings written to stderr by the call
(one `sys.stderr.write` per element, the source appends no newline).
The Python true division of the two heavy-atom counts yields their exact
quotient, written with `Rat.divInt`; it raises `ZeroDivisionError` when
`m.GetNumHeavyAtoms()` is `0`, before `qed` is evaluated; all earlier
descriptor computations are side-effect free, so the outcome is modelled
by guarding the division. -/
def calcDesc {Mol : Type} (tk : Toolkit Mol) (roundQ : Rat → Nat → Rat)
    (smi name : String) : CalcOutcome × List String :=
  match tk.MolFromSmiles smi with
  | some m =>
    let hba := tk.CalcNumHBA m
    let hbd := tk.CalcNumHBD m
    let nrings := tk.CalcNumRings m
    let rtb := tk.CalcNumRotatableBonds m
    let psa := tk.CalcTPSA m
    let logp := (tk.CalcCrippenDescriptors m).1
    let mr := (tk.CalcCrippenDescriptors m).2
    let mw := tk.CalcMolWt m
    let csp3 := tk.CalcFractionCSP3 m
    if tk.GetNumHeavyAtoms m = 0 then (CalcOutcome.zeroDivisionError, [])
    else
      let fmf : Rat :=
        Rat.divInt (tk.GetNumHeavyAtoms (tk.GetScaffoldForMol m) : Int)
          (tk.GetNumHeavyAtoms m : Int)
      let qedv := tk.qed m
      (CalcOutcome.ok
        [Field.S name, Field.I hba, Field.I hbd, Field.I (hba + hbd),
         Field.I nrings, Field.I rtb, Field.F (roundQ psa 2),
         Field.F (roundQ logp 2), Field.F (roundQ mr 2),
         Field.F (roundQ mw 2), Field.F (roundQ csp3 3),
         Field.F (roundQ fmf 3), Field.F (roundQ qedv 3)], [])
  | none =>
    (CalcOutcome.parseFail,
     ["smiles " ++ smi ++ " cannot be parsed (" ++ name ++ ")"])

/-- Embedding of `calc_mp(items)`, which unpacks a reader record into the
two positional arguments of `calc`: the first component is passed as
`smi`, the second as `name`. -/
def calc_mp {Mol : Type} (tk : Toolkit Mol) (roundQ : Rat → Nat → Rat)
    (items : String × String) : CalcOutcome × List String :=
  calcDesc tk roundQ items.1 items.2

/-- Structure-notation component of a reader record: the first component,
since `calc_mp` passes it as the `smi` argument of `calc`. -/
def recordStructure (r : String × String) : String := r.1

/-- Identifier component of a reader record: the second component, since
`calc_mp` passes it as the `name` argument of `calc`, and `calc` places
`name` first in its result tuple (the Name column). -/
def recordIdentifier (r : String × String) : String := r.2

/-- Predicate for a `calc` outcome that is a returned descriptor tuple. -/
def CalcOutcome.isRecord : CalcOutcome → Bool
  | CalcOutcome.ok _ => true
  | _ => false

/-- The `descriptor_names` list from the source. -/
def descriptor_names : List String :=
  ["HBA", "HBD", "complexity", "NumRings", "RTB", "TPSA", "logP", "MR",
   "MW", "Csp3", "fmf", "qed"]

/-- Header row written first to the output file:
the tab-join of `Name` and the twelve descriptor names. -/
def headerLine : String :=
  String.intercalate "\t" ("Name" :: descriptor_names)

/-- Python `str()` on one tuple entry; `floatStr` stands for float
formatting, which is external to the script. -/
def fieldStr (floatStr : Rat → String) : Field → String
  | Field.S s => s
  | Field.I n => toString n
  | Field.F q => floatStr q

/-- One output row: the tab-join of the stringified tuple entries,
as in the source. -/
def formatRow (floatStr : Rat → String) (fields : List Field) : String :=
  String.intercalate "\t" (fields.map (fieldStr floatStr))

/-- Observable effects of the main loop: `lines` are the rows written to
the output file after the header, `err` the strings written to stderr by
the calculator calls in input order, and `completed` whether the loop
drained all records (false when a worker exception aborted the run). -/
structure RunOut where
  lines : List String
  err : List String
  completed : Bool
deriving DecidableEq, Repr

/-- Embedding of the main writer loop
`for i, res in enumerate(p.imap(calc_mp, read_smi(...)))`: results come
back in input order; a non-`None` result is written as one row, a `None`
result is skipped, and an exception raised in a worker propagates out of
the loop when its result is collected, ending the run. -/
def dispatchLoop {Mol : Type} (tk : Toolkit Mol) (roundQ : Rat → Nat → Rat)
    (floatStr : Rat → String) : List (String × String) → RunOut
  | [] => ⟨[], [], true⟩
  | r :: rest =>
    match calc_mp tk roundQ r with
    | (CalcOutcome.ok fields, es) =>
      let acc := dispatchLoop tk roundQ floatStr rest
      ⟨formatRow floatStr fields :: acc.lines, es ++ acc.err, acc.completed⟩
    | (CalcOutcome.parseFail, es) =>
      let acc := dispatchLoop tk roundQ floatStr rest
      ⟨acc.lines, es ++ acc.err, acc.completed⟩
    | (CalcOutcome.zeroDivisionError, es) => ⟨[], es, false⟩

/-- Content of the output file as a list of lines: the header row is
written before the loop starts, so it is present even for empty input
and even when the run aborts. -/
def outputFile {Mol : Type} (tk : Toolkit Mol) (roundQ : Rat → Nat → Rat)
    (floatStr : Rat → String) (records : List (String × String)) :
    List String :=
  headerLine :: (dispatchLoop tk roundQ floatStr records).lines

/-- Number of input records whose structure string parses successfully
(`MolFromSmiles` returns a molecule). -/
def countParsed {Mol : Type} (tk : Toolkit Mol)
    (records : List (String × String)) : Nat :=
  records.countP (fun r => (tk.MolFromSmiles r.1).isSome)

/-- Calculator outcome of each input record, in input order; the worker
computations are pure, so the pool computes exactly these values. -/
def outcomesOf {Mol : Type} (tk : Toolkit Mol) (roundQ : Rat → Nat → Rat)
    (records : List (String × String)) : List CalcOutcome :=
  records.map (fun r => (calc_mp tk roundQ r).1)

/-- Writer loop over a stream of calculator outcomes already in input
order: write rows for tuples, skip `None` results, abort on a worker
exception. Returns the rows and whether the stream was drained. -/
def writeOutcomes (floatStr : Rat → String) :
    List CalcOutcome → List String × Bool
  | [] => ([], true)
  | CalcOutcome.ok fields :: rest =>
    let acc := writeOutcomes floatStr rest
    (formatRow floatStr fields :: acc.1, acc.2)
  | CalcOutcome.parseFail :: rest => writeOutcomes floatStr rest
  | CalcOutcome.zeroDivisionError :: _ => ([], false)

/-- Comparison of index-tagged outcomes by input index. -/
def idxLe (a b : Nat × CalcOutcome) : Prop := a.1 ≤ b.1

/-- Strict comparison of index-tagged outcomes by input index. -/
def idxLt (a b : Nat × CalcOutcome) : Prop := a.1 < b.1

instance : DecidableRel idxLe :=
  fun a b => inferInstanceAs (Decidable (a.1 ≤ b.1))

instance : IsTotal (Nat × CalcOutcome) idxLe :=
  ⟨fun a b => Nat.le_total a.1 b.1⟩

instance : IsTrans (Nat × CalcOutcome) idxLe :=
  ⟨fun _ _ _ h h2 => Nat.le_trans h h2⟩

instance : IsAntisymm (Nat × CalcOutcome) idxLt :=
  ⟨fun _ _ h h2 => absurd (Nat.lt_trans h h2) (Nat.lt_irrefl _)⟩

/-- Modelled from the spec: the collection side of `Pool.imap`. Workers
finish in an arbitrary order, producing a sequence of index-tagged
results; `imap` hands results to the consumer by ascending input index
(the ordered-parallel-map semantics the spec ascribes to the pool), which
is reassembling the tagged completions sorted by index. -/
def collectOrdered (comp : List (Nat × CalcOutcome)) : List CalcOutcome :=
  (List.insertionSort idxLe comp).map Prod.snd

/-- Output file produced by a parallel run whose workers completed in the
order given by `comp` (a permutation of the tagged outcomes): the header
plus the rows written while draining the reordered result stream. -/
def parallelFile (floatStr : Rat → String)
    (comp : List (Nat × CalcOutcome)) : List String :=
  headerLine :: (writeOutcomes floatStr (collectOrdered comp)).1

/-- Concrete molecule data used to instantiate the abstract toolkit
interface in witnesses: heavy-atom counts of the molecule and of its
Murcko scaffold, and the raw descriptor values. -/
structure MolData where
  heavy : Nat
  scaffoldHeavy : Nat
  hba : Nat
  hbd : Nat
  nrings : Nat
  rtb : Nat
  tpsa : Rat
  logp : Rat
  mr : Rat
  mw : Rat
  csp3 : Rat
  qedScore : Rat
deriving DecidableEq, Repr

/-- Modelled from the spec: a molecule handle with zero heavy atoms. The
spec documents that a successfully parsed molecule can have zero heavy
atoms and that the scaffold-fraction division is then unguarded; the real
toolkit produces such a handle for the structure string of molecular
hydrogen. -/
def mH2 : MolData := ⟨0, 0, 0, 0, 0, 0, 0, 0, 0, 0, 0, 0⟩

/-- A concrete molecule handle with three heavy atoms (an ethanol-like
acyclic molecule, whose Murcko scaffold is empty). -/
def mEthanol : MolData := ⟨3, 0, 1, 1, 0, 0, 20, 0, 13, 46, 1, Rat.divInt 2 5⟩

/-- Modelled from the spec: a concrete instance of the external toolkit
interface for witnesses. It parses exactly two structure strings, one of
them to a zero-heavy-atom molecule (a boundary case the spec documents as
reachable), and reads the descriptors off the handle; the scaffold of a
handle is the handle restricted to its scaffold heavy-atom count. -/
def tkDemo : Toolkit MolData where
  MolFromSmiles smi :=
    if smi = "[H][H]" then some mH2
    else if smi = "CCO" then some mEthanol
    else none
  CalcNumHBA m := m.hba
  CalcNumHBD m := m.hbd
  CalcNumRings m := m.nrings
  CalcNumRotatableBonds m := m.rtb
  CalcTPSA m := m.tpsa
  CalcCrippenDescriptors m := (m.logp, m.mr)
  CalcMolWt m := m.mw
  CalcFractionCSP3 m := m.csp3
  GetScaffoldForMol m := { m with heavy := m.scaffoldHeavy }
  GetNumHeavyAtoms m := m.heavy
  qed m := m.qedScore

/-- Stand-in rounding function used when instantiating witnesses; the
theorems about `calcDesc` hold for every rounding function. -/
def roundId : Rat → Nat → Rat := fun q _ => q

/-- Stand-in float formatting used when instantiating witnesses; the
theorems hold for every formatting function. -/
def floatStrDemo : Rat → String := fun q => toString q.num

end Physchem

namespace Physchem

theorem calcDesc_none {Mol : Type} (tk : Toolkit Mol)
    (roundQ : Rat → Nat → Rat) (smi name : String)
    (h : tk.MolFromSmiles smi = none) :
    calcDesc tk roundQ smi name =
      (CalcOutcome.parseFail,
       ["smiles " ++ smi ++ " cannot be parsed (" ++ name ++ ")"]) := by
  unfold calcDesc
  rw [h]

theorem calcDesc_some {Mol : Type} (tk : Toolkit Mol)
    (roundQ : Rat → Nat → Rat) (smi name : String) (m : Mol)
    (h : tk.MolFromSmiles smi = some m) :
    calcDesc tk roundQ smi name =
      if tk.GetNumHeavyAtoms m = 0 then (CalcOutcome.zeroDivisionError, [])
      else
        (CalcOutcome.ok
          [Field.S name, Field.I (tk.CalcNumHBA m), Field.I (tk.CalcNumHBD m),
           Field.I (tk.CalcNumHBA m + tk.CalcNumHBD m),
           Field.I (tk.CalcNumRings m), Field.I (tk.CalcNumRotatableBonds m),
           Field.F (roundQ (tk.CalcTPSA m) 2),
           Field.F (roundQ (tk.CalcCrippenDescriptors m).1 2),
           Field.F (roundQ (tk.CalcCrippenDescriptors m).2 2),
           Field.F (roundQ (tk.CalcMolWt m) 2),
           Field.F (roundQ (tk.CalcFractionCSP3 m) 3),
           Field.F (roundQ (Rat.divInt
             (tk.GetNumHeavyAtoms (tk.GetScaffoldForMol m) : Int)
             (tk.GetNumHeavyAtoms m : Int)) 3),
           Field.F (roundQ (tk.qed m) 3)], []) := by
  unfold calcDesc
  rw [h]

theorem calc_ok_of_parsed {Mol : Type} (tk : Toolkit Mol)
    (roundQ : Rat → Nat → Rat) (smi name : String) (m : Mol)
    (hp : tk.MolFromSmiles smi = some m)
    (hz : (calcDesc tk roundQ smi name).1 ≠ CalcOutcome.zeroDivisionError) :
    ∃ fields, calcDesc tk roundQ smi name = (CalcOutcome.ok fields, []) := by
  have he := calcDesc_some tk roundQ smi name m hp
  by_cases h0 : tk.GetNumHeavyAtoms m = 0
  · rw [if_pos h0] at he
    exact absurd (by rw [he]) hz
  · rw [if_neg h0] at he
    exact ⟨_, he⟩

theorem dispatchLoop_cons {Mol : Type} (tk : Toolkit Mol)
    (roundQ : Rat → Nat → Rat) (floatStr : Rat → String)
    (r : String × String) (rest : List (String × String)) :
    dispatchLoop tk roundQ floatStr (r :: rest) =
      match calc_mp tk roundQ r with
      | (CalcOutcome.ok fields, es) =>
        ⟨formatRow floatStr fields ::
           (dispatchLoop tk roundQ floatStr rest).lines,
         es ++ (dispatchLoop tk roundQ floatStr rest).err,
         (dispatchLoop tk roundQ floatStr rest).completed⟩
      | (CalcOutcome.parseFail, es) =>
        ⟨(dispatchLoop tk roundQ floatStr rest).lines,
         es ++ (dispatchLoop tk roundQ floatStr rest).err,
         (dispatchLoop tk roundQ floatStr rest).completed⟩
      | (CalcOutcome.zeroDivisionError, es) => ⟨[], es, false⟩ := rfl

theorem dispatchLoop_cons_ok {Mol : Type} (tk : Toolkit Mol)
    (roundQ : Rat → Nat → Rat) (floatStr : Rat → String)
    (r : String × String) (rest : List (String × String))
    (fields : List Field) (es : List String)
    (hc : calc_mp tk roundQ r = (CalcOutcome.ok fields, es)) :
    dispatchLoop tk roundQ floatStr (r :: rest) =
      ⟨formatRow floatStr fields ::
         (dispatchLoop tk roundQ floatStr rest).lines,
       es ++ (dispatchLoop tk roundQ floatStr rest).err,
       (dispatchLoop tk roundQ floatStr rest).completed⟩ := by
  rw [dispatchLoop_cons, hc]

theorem dispatchLoop_cons_parseFail {Mol : Type} (tk : Toolkit Mol)
    (roundQ : Rat → Nat → Rat) (floatStr : Rat → String)
    (r : String × String) (rest : List (String × String)) (es : List String)
    (hc : calc_mp tk roundQ r = (CalcOutcome.parseFail, es)) :
    dispatchLoop tk roundQ floatStr (r :: rest) =
      ⟨(dispatchLoop tk roundQ floatStr rest).lines,
       es ++ (dispatchLoop tk roundQ floatStr rest).err,
       (dispatchLoop tk roundQ floatStr rest).completed⟩ := by
  rw [dispatchLoop_cons, hc]

theorem dispatchLoop_cons_zeroDiv {Mol : Type} (tk : Toolkit Mol)
    (roundQ : Rat → Nat → Rat) (floatStr : Rat → String)
    (r : String × String) (rest : List (String × String)) (es : List String)
    (hc : calc_mp tk roundQ r = (CalcOutcome.zeroDivisionError, es)) :
    dispatchLoop tk roundQ floatStr (r :: rest) = ⟨[], es, false⟩ := by
  rw [dispatchLoop_cons, hc]

/-- C2. The reader, given start=3 and lines=2 on a 5-line file, yields
exactly the records of the 3rd and 4th lines, as the claim states; but
iteration does not then terminate without error: the end of the window is
reached while a 5th line remains, the generator executes
`raise StopIteration`, and since Python 3.7 (PEP 479) that reaches the
consumer as a `RuntimeError`. When the line count is unspecified the
iteration does end cleanly at end of file. This theorem evaluates the
embedded reader at the failing input from the claim. -/
theorem C2_theorem :
    read_smi ["a", "b", "c", "d", "e"] none 3 (some 2) =
      ([("c", "c"), ("d", "d")], ReadOutcome.stopIterationRuntimeError) ∧
    read_smi ["a", "b", "c", "d", "e"] none 3 none =
      ([("c", "c"), ("d", "d"), ("e", "e")], ReadOutcome.eof) := by decide

/-- C7. The reader yields, for the two-field line "CCO\tethanol",
the record whose structure component is "CCO" and whose identifier
component (the one `calc_mp` passes as the `name` argument, hence the
Name column) is "ethanol"; for the one-field line "CCO", the single
field serves as both components. -/
theorem C7_theorem :
    read_smi ["CCO\tethanol"] none 1 none =
      ([("CCO", "ethanol")], ReadOutcome.eof) ∧
    recordIdentifier ("CCO", "ethanol") = "ethanol" ∧
    recordStructure ("CCO", "ethanol") = "CCO" ∧
    read_smi ["CCO"] none 1 none = ([("CCO", "CCO")], ReadOutcome.eof) ∧
    recordIdentifier ("CCO", "CCO") = "CCO" ∧
    recordStructure ("CCO", "CCO") = "CCO" := by decide

/-- C9. Evaluation of the embedded reader showing the claim fails on the
code: the argparse default for the startpos argument is 0, not the 1 the
help text announces, and after the internal decrement the window becomes
[-1, -1+l), so with the default start and lines=2 the reader yields only
the first line record, while an explicit start of 1 yields the first two
line records: the two windows differ. -/
theorem C9_theorem :
    startpos_default = 0 ∧
    read_smi ["a", "b", "c", "d", "e"] none startpos_default (some 2) =
      ([("a", "a")], ReadOutcome.stopIterationRuntimeError) ∧
    read_smi ["a", "b", "c", "d", "e"] none 1 (some 2) =
      ([("a", "a"), ("b", "b")], ReadOutcome.stopIterationRuntimeError) ∧
    (read_smi ["a", "b", "c", "d", "e"] none startpos_default (some 2)).1 ≠
      (read_smi ["a", "b", "c", "d", "e"] none 1 (some 2)).1 := by decide

/-- C10. With the default whitespace separator, a line that is empty
after stripping splits to an empty field list, and the unconditional
`items[0]` access raises `IndexError`: the reader loop at such an
in-window line yields nothing further and ends with `indexError` — the
blank line is neither skipped nor yielded. -/
theorem C10_theorem (sp : Int) (ep : Option Int) (i : Nat) (line : String)
    (rest : List String) (hblank : pyStrip line = "")
    (hge : sp ≤ (i : Int)) (hwin : beforeEnd ep i = true) :
    readLoop none sp ep i (line :: rest) = ([], ReadOutcome.indexError) := by
  have hsplit : splitLine none line = [] := by
    unfold splitLine pySplitWs
    rw [hblank]
    rfl
  unfold readLoop
  rw [if_pos hge, hwin, if_pos rfl, hsplit]

/-- C10 witness: a file whose first line is blank, under the default
separator and the full-file window. -/
theorem C10_witness :
    read_smi ["", "x"] none 1 none = ([], ReadOutcome.indexError) :=
  C10_theorem 0 none 0 "" ["x"] (by decide) (by decide) (by decide)

/-- C8 counterexample: for the two-or-more-field line "CCO\tethanol" the
claim says the reader yields the FIRST field as the identifier, but the
yielded record carries "ethanol" (the second field) as its identifier
component — the component that `calc_mp` passes as the `name` argument
and which `calc` puts in the Name column, as the record evaluation
shows. -/
theorem C8_counterexample :
    read_smi ["CCO\tethanol"] none 1 none =
      ([("CCO", "ethanol")], ReadOutcome.eof) ∧
    recordIdentifier ("CCO", "ethanol") = "ethanol" ∧
    ¬ recordIdentifier ("CCO", "ethanol") = "CCO" ∧
    (calc_mp tkDemo roundId ("CCO", "ethanol")).1 =
      CalcOutcome.ok
        [Field.S "ethanol", Field.I 1, Field.I 1, Field.I 2, Field.I 0,
         Field.I 0, Field.F 20, Field.F 0, Field.F 13, Field.F 46,
         Field.F 1, Field.F 0, Field.F (Rat.divInt 2 5)] := by decide

/-- C8 as amended: for every input line whose split has two or more
fields, the reader yields a record whose structure component is the
first field and whose identifier component is the second field. -/
theorem C8_theorem (sep : Option String) (sp : Int) (ep : Option Int)
    (i : Nat) (line : String) (rest : List String) (x y : String)
    (tl : List String) (hsplit : splitLine sep line = x :: y :: tl)
    (hge : sp ≤ (i : Int)) (hwin : beforeEnd ep i = true) :
    readLoop sep sp ep i (line :: rest) =
      ((x, y) :: (readLoop sep sp ep (i + 1) rest).1,
       (readLoop sep sp ep (i + 1) rest).2) ∧
    recordStructure (x, y) = x ∧ recordIdentifier (x, y) = y := by
  refine ⟨?_, rfl, rfl⟩
  conv_lhs => rw [readLoop]
  rw [if_pos hge, hwin, if_pos rfl, hsplit]

/-- C3. For every structure string the toolkit fails to parse, `calc`
returns no record (the `None` branch) and writes exactly one diagnostic
message to the error stream, the formatted string containing the
structure string and the identifier; and the writer loop on a batch
starting with such a record produces exactly the output rows, remaining
stderr writes and completion status of the rest of the batch — the
failure is never fatal. -/
theorem C3_theorem {Mol : Type} (tk : Toolkit Mol)
    (roundQ : Rat → Nat → Rat) (floatStr : Rat → String)
    (smi name : String) (hp : tk.MolFromSmiles smi = none) :
    calcDesc tk roundQ smi name =
      (CalcOutcome.parseFail,
       ["smiles " ++ smi ++ " cannot be parsed (" ++ name ++ ")"]) ∧
    ∀ rest, dispatchLoop tk roundQ floatStr ((smi, name) :: rest) =
      ⟨(dispatchLoop tk roundQ floatStr rest).lines,
       ("smiles " ++ smi ++ " cannot be parsed (" ++ name ++ ")") ::
         (dispatchLoop tk roundQ floatStr rest).err,
       (dispatchLoop tk roundQ floatStr rest).completed⟩ := by
  have h := calcDesc_none tk roundQ smi name hp
  exact ⟨h, fun rest =>
    dispatchLoop_cons_parseFail tk roundQ floatStr (smi, name) rest _ h⟩

/-- C3 witness: a structure string the demo toolkit does not parse,
alone in a batch: no output row, one stderr message naming the string
and the identifier, and the run completes. -/
theorem C3_witness :
    calcDesc tkDemo roundId "xx" "bad" =
      (CalcOutcome.parseFail,
       ["smiles " ++ "xx" ++ " cannot be parsed (" ++ "bad" ++ ")"]) ∧
    dispatchLoop tkDemo roundId floatStrDemo [("xx", "bad")] =
      ⟨[], ["smiles " ++ "xx" ++ " cannot be parsed (" ++ "bad" ++ ")"],
       true⟩ := by
  have h := C3_theorem tkDemo roundId floatStrDemo "xx" "bad" (by decide)
  exact ⟨h.1, h.2 []⟩

/-- C4. For every successfully parsed molecule: if it has zero heavy
atoms the scaffold-fraction division raises `ZeroDivisionError` (the
call produces no record and no stderr write); if it has at least one
heavy atom no such error occurs, the call returns a record, and its
fraction-in-scaffold entry (position 11, after the identifier) is the
rounding of the exact quotient of the scaffold heavy-atom count by the
molecule heavy-atom count. -/
theorem C4_theorem {Mol : Type} (tk : Toolkit Mol)
    (roundQ : Rat → Nat → Rat) (smi name : String) (m : Mol)
    (hp : tk.MolFromSmiles smi = some m) :
    (tk.GetNumHeavyAtoms m = 0 →
      calcDesc tk roundQ smi name = (CalcOutcome.zeroDivisionError, [])) ∧
    (tk.GetNumHeavyAtoms m ≠ 0 →
      ∃ fields, calcDesc tk roundQ smi name = (CalcOutcome.ok fields, []) ∧
        fields[11]? = some (Field.F (roundQ (Rat.divInt
          (tk.GetNumHeavyAtoms (tk.GetScaffoldForMol m) : Int)
          (tk.GetNumHeavyAtoms m : Int)) 3))) := by
  have he := calcDesc_some tk roundQ smi name m hp
  constructor
  · intro h0
    rwa [if_pos h0] at he
  · intro h0
    rw [if_neg h0] at he
    exact ⟨_, he, rfl⟩

/-- C4 witness: the demo toolkit parses the molecular-hydrogen string to
a zero-heavy-atom molecule, on which the call raises. -/
theorem C4_witness :
    calcDesc tkDemo roundId "[H][H]" "h2" =
      (CalcOutcome.zeroDivisionError, []) :=
  (C4_theorem tkDemo roundId "[H][H]" "h2" mH2 (by decide)).1 (by decide)

/-- C1 counterexample: the toolkit parses the molecular-hydrogen string
successfully, yet `calc` returns no record for it — the unguarded
scaffold-fraction division raises first — refuting the claim for every
successfully parsed structure string. -/
theorem C1_counterexample :
    tkDemo.MolFromSmiles "[H][H]" = some mH2 ∧
    CalcOutcome.isRecord (calcDesc tkDemo roundId "[H][H]" "h2").1 = false ∧
    (calcDesc tkDemo roundId "[H][H]" "h2").1 =
      CalcOutcome.zeroDivisionError := by decide

/-- C1 as amended: for every structure string the toolkit parses
successfully to a molecule with at least one heavy atom, `calc` returns
a record of the identifier followed by exactly twelve descriptor values
in the fixed order HBA, HBD, HBA+HBD, ring count, rotatable bonds, TPSA,
logP, MR, MW, fraction-sp3-carbons, fraction-in-scaffold, QED, with
TPSA, logP, MR and MW rounded to 2 decimal places and the last three to
3 decimal places (a record that `calc` returns always has 13 entries:
the identifier plus twelve descriptors). -/
theorem C1_theorem {Mol : Type} (tk : Toolkit Mol)
    (roundQ : Rat → Nat → Rat) (smi name : String) (m : Mol)
    (hp : tk.MolFromSmiles smi = some m)
    (hh : tk.GetNumHeavyAtoms m ≠ 0) :
    calcDesc tk roundQ smi name =
      (CalcOutcome.ok
        [Field.S name, Field.I (tk.CalcNumHBA m), Field.I (tk.CalcNumHBD m),
         Field.I (tk.CalcNumHBA m + tk.CalcNumHBD m),
         Field.I (tk.CalcNumRings m), Field.I (tk.CalcNumRotatableBonds m),
         Field.F (roundQ (tk.CalcTPSA m) 2),
         Field.F (roundQ (tk.CalcCrippenDescriptors m).1 2),
         Field.F (roundQ (tk.CalcCrippenDescriptors m).2 2),
         Field.F (roundQ (tk.CalcMolWt m) 2),
         Field.F (roundQ (tk.CalcFractionCSP3 m) 3),
         Field.F (roundQ (Rat.divInt
           (tk.GetNumHeavyAtoms (tk.GetScaffoldForMol m) : Int)
           (tk.GetNumHeavyAtoms m : Int)) 3),
         Field.F (roundQ (tk.qed m) 3)], []) ∧
    ∀ fields, calcDesc tk roundQ smi name = (CalcOutcome.ok fields, []) →
      fields.length = 13 := by
  have he := calcDesc_some tk roundQ smi name m hp
  rw [if_neg hh] at he
  refine ⟨he, fun fields hf => ?_⟩
  have h1 := congrArg Prod.fst (he.symm.trans hf)
  injection h1 with h2
  rw [← h2]
  rfl

/-- C1 witness: the demo toolkit on an ethanol-like record; the record
is the identifier followed by the twelve descriptor values. -/
theorem C1_witness :
    calcDesc tkDemo roundId "CCO" "ethanol" =
      (CalcOutcome.ok
        [Field.S "ethanol", Field.I 1, Field.I 1, Field.I 2, Field.I 0,
         Field.I 0, Field.F 20, Field.F 0, Field.F 13, Field.F 46,
         Field.F 1, Field.F 0, Field.F (Rat.divInt 2 5)], []) := by
  have h := C1_theorem tkDemo roundId "CCO" "ethanol" mEthanol
    (by decide) (by decide)
  exact h.1.trans (by decide)

/-- C6 counterexample: one input record that parses successfully to a
zero-heavy-atom molecule; the run aborts on the worker exception and the
output file holds only the header row, so its row count is not the
number of successfully parsed records plus one. -/
theorem C6_counterexample :
    countParsed tkDemo [("[H][H]", "h2")] = 1 ∧
    outputFile tkDemo roundId floatStrDemo [("[H][H]", "h2")] =
      [headerLine] ∧
    (outputFile tkDemo roundId floatStrDemo [("[H][H]", "h2")]).length ≠
      1 + 1 := by decide

/-- C6 as amended: for every run in which no record makes the calculator
raise (no successfully parsed molecule has zero heavy atoms), the output
file row count equals the number of successfully parsed input records
plus one header row; the header row is first, and is present even for
empty input. -/
theorem C6_theorem {Mol : Type} (tk : Toolkit Mol)
    (roundQ : Rat → Nat → Rat) (floatStr : Rat → String)
    (records : List (String × String))
    (h : ∀ r ∈ records,
      (calc_mp tk roundQ r).1 ≠ CalcOutcome.zeroDivisionError) :
    (outputFile tk roundQ floatStr records).length =
      countParsed tk records + 1 ∧
    (outputFile tk roundQ floatStr records).head? = some headerLine ∧
    outputFile tk roundQ floatStr [] = [headerLine] := by
  refine ⟨?_, rfl, rfl⟩
  have key : ∀ rs : List (String × String),
      (∀ r ∈ rs, (calc_mp tk roundQ r).1 ≠ CalcOutcome.zeroDivisionError) →
      (dispatchLoop tk roundQ floatStr rs).lines.length = countParsed tk rs := by
    intro rs
    induction rs with
    | nil => intro _; rfl
    | cons r rest ih =>
      intro hall
      have hr := hall r (List.mem_cons_self r rest)
      have hrest := fun x hx => hall x (List.mem_cons_of_mem r hx)
      cases hp : tk.MolFromSmiles r.1 with
      | none =>
        have hc : calc_mp tk roundQ r = (CalcOutcome.parseFail,
            ["smiles " ++ r.1 ++ " cannot be parsed (" ++ r.2 ++ ")"]) :=
          calcDesc_none tk roundQ r.1 r.2 hp
        rw [dispatchLoop_cons_parseFail tk roundQ floatStr r rest _ hc]
        simp only [countParsed, List.countP_cons, hp, Option.isSome_none,
          Bool.false_eq_true, if_false]
        exact ih hrest
      | some m =>
        obtain ⟨fields, hc⟩ := calc_ok_of_parsed tk roundQ r.1 r.2 m hp hr
        rw [dispatchLoop_cons_ok tk roundQ floatStr r rest fields [] hc]
        simp only [countParsed, List.countP_cons, hp, Option.isSome_some,
          if_true, List.length_cons]
        exact congrArg (fun n => n + 1) (ih hrest)
  have hl := key records h
  simp only [outputFile, List.length_cons]
  rw [hl]

/-- C6 witness: a two-record batch, one record parsing and one not; two
output rows total (header plus the one success). -/
theorem C6_witness :
    (outputFile tkDemo roundId floatStrDemo
       [("CCO", "ethanol"), ("xx", "bad")]).length =
      countParsed tkDemo [("CCO", "ethanol"), ("xx", "bad")] + 1 ∧
    (outputFile tkDemo roundId floatStrDemo
       [("CCO", "ethanol"), ("xx", "bad")]).head? = some headerLine ∧
    outputFile tkDemo roundId floatStrDemo [] = [headerLine] :=
  C6_theorem tkDemo roundId floatStrDemo
    [("CCO", "ethanol"), ("xx", "bad")] (by decide)

theorem insertionSort_eq_enum (l : List CalcOutcome)
    (comp : List (Nat × CalcOutcome)) (hperm : comp.Perm l.enum) :
    List.insertionSort idxLe comp = l.enum := by
  have hsp : (List.insertionSort idxLe comp).Perm l.enum :=
    (List.perm_insertionSort idxLe comp).trans hperm
  have henum : List.Pairwise idxLt l.enum := by
    have h1 : List.Pairwise (· < ·) (l.enum.map Prod.fst) := by
      rw [List.enum_map_fst]
      exact List.pairwise_lt_range _
    exact List.Pairwise.of_map Prod.fst (fun a b h => h) h1
  have hsorted : List.Pairwise idxLt (List.insertionSort idxLe comp) := by
    have hle : List.Pairwise idxLe (List.insertionSort idxLe comp) :=
      List.sorted_insertionSort idxLe comp
    have hnd : ((List.insertionSort idxLe comp).map Prod.fst).Perm
        (List.range l.length) := by
      have h2 := hsp.map Prod.fst
      rwa [List.enum_map_fst] at h2
    have hnodup : ((List.insertionSort idxLe comp).map Prod.fst).Nodup :=
      hnd.nodup_iff.mpr (List.nodup_range _)
    have hne : List.Pairwise (fun a b : Nat × CalcOutcome => a.1 ≠ b.1)
        (List.insertionSort idxLe comp) :=
      List.Pairwise.of_map Prod.fst (fun a b h => h) hnodup
    exact (hle.and hne).imp (fun hab => lt_of_le_of_ne hab.1 hab.2)
  exact List.eq_of_perm_of_sorted hsp hsorted henum

theorem dispatch_eq_writeOutcomes {Mol : Type} (tk : Toolkit Mol)
    (roundQ : Rat → Nat → Rat) (floatStr : Rat → String)
    (records : List (String × String)) :
    (dispatchLoop tk roundQ floatStr records).lines =
      (writeOutcomes floatStr (outcomesOf tk roundQ records)).1 ∧
    (dispatchLoop tk roundQ floatStr records).completed =
      (writeOutcomes floatStr (outcomesOf tk roundQ records)).2 := by
  induction records with
  | nil => exact ⟨rfl, rfl⟩
  | cons r rest ih =>
    rcases hc : calc_mp tk roundQ r with ⟨o, es⟩
    have houts : outcomesOf tk roundQ (r :: rest) =
        o :: outcomesOf tk roundQ rest := by
      simp [outcomesOf, hc]
    cases o with
    | ok fields =>
      rw [dispatchLoop_cons_ok tk roundQ floatStr r rest fields es hc, houts]
      simp only [writeOutcomes]
      exact ⟨congrArg (formatRow floatStr fields :: ·) ih.1, ih.2⟩
    | parseFail =>
      rw [dispatchLoop_cons_parseFail tk roundQ floatStr r rest es hc, houts]
      simp only [writeOutcomes]
      exact ⟨ih.1, ih.2⟩
    | zeroDivisionError =>
      rw [dispatchLoop_cons_zeroDiv tk roundQ floatStr r rest es hc, houts]
      exact ⟨rfl, rfl⟩

/-- C5. Order preservation of the parallel map: for every batch of
records and every completion order of the workers (any permutation of
the index-tagged calculator outcomes), draining the ordered
result stream writes exactly the output file of the sequential run — the
row order always matches the order the records were read, so a 1-worker
run and an N-worker run produce identical output files. -/
theorem C5_theorem {Mol : Type} (tk : Toolkit Mol)
    (roundQ : Rat → Nat → Rat) (floatStr : Rat → String)
    (records : List (String × String)) (comp : List (Nat × CalcOutcome))
    (hperm : comp.Perm (outcomesOf tk roundQ records).enum) :
    parallelFile floatStr comp = outputFile tk roundQ floatStr records := by
  unfold parallelFile outputFile collectOrdered
  rw [insertionSort_eq_enum (outcomesOf tk roundQ records) comp hperm,
    List.enum_map_snd,
    (dispatch_eq_writeOutcomes tk roundQ floatStr records).1]

/-- C5 witness: a two-record batch whose workers complete in reversed
order; the collected file equals the sequential output file. -/
theorem C5_witness :
    parallelFile floatStrDemo
      [(1, CalcOutcome.parseFail),
       (0, CalcOutcome.ok
         [Field.S "ethanol", Field.I 1, Field.I 1, Field.I 2, Field.I 0,
          Field.I 0, Field.F 20, Field.F 0, Field.F 13, Field.F 46,
          Field.F 1, Field.F 0, Field.F (Rat.divInt 2 5)])] =
      outputFile tkDemo roundId floatStrDemo
        [("CCO", "ethanol"), ("xx", "bad")] :=
  C5_theorem tkDemo roundId floatStrDemo
    [("CCO", "ethanol"), ("xx", "bad")]
    [(1, CalcOutcome.parseFail),
     (0, CalcOutcome.ok
       [Field.S "ethanol", Field.I 1, Field.I 1, Field.I 2, Field.I 0,
        Field.I 0, Field.F 20, Field.F 0, Field.F 13, Field.F 46,
        Field.F 1, Field.F 0, Field.F (Rat.divInt 2 5)])] (by decide)

/-- C8 witness: the two-field line "CCO\tethanol" under the default
separator, at the start of the file. -/
theorem C8_witness :
    readLoop none 0 none 0 ["CCO\tethanol"] =
      ([("CCO", "ethanol")], ReadOutcome.eof) ∧
    recordStructure ("CCO", "ethanol") = "CCO" ∧
    recordIdentifier ("CCO", "ethanol") = "ethanol" :=
  C8_theorem none 0 none 0 "CCO\tethanol" [] "CCO" "ethanol" []
    (by decide) (by decide) (by decide)

end Physchem
